import Mathlib

/-!
Verification development for the SerMidi serial-to-MIDI bridge (src/main.py).

The file gives a shallow embedding of the parts of the program the claims
are about:

* the log-level gate (`LOG_LEVELS`, `logger`, main.py lines 26-44);
* the inbound reader loop started by `serial_set_callback`
  (`workerLoop`, lines 58-74) together with `process_serial_in` (176-179);
* the outbound MIDI callback `process_midi_out` (181-188);
* the supervisor loop `Serial2Midi.run` (111-167) with `stop` (170-173),
  modelled as a script-driven transition system (`runLoop`);
* the `open_serial` retry loop (124-140), modelled as an action trace
  with an externally chosen stop-request instant (`openSerialTrace`);
* device discovery `findDevices` (194-215), with predicate evaluation
  abstracted as an oracle that may report a raised exception.

Concurrency is modelled by discrete interleaving: asynchronous stimuli
(external `stop()` calls, MIDI input messages, serial read results) are
script inputs consumed at the program's own suspension points.
-/

namespace SerMidi

/-- Log levels, mirroring the `LogLevel` enum of main.py. -/
inductive LogLevel
  | INFO
  | WARN
  | ERROR
  | DEBUG
  | VERBOSE
deriving DecidableEq, Repr

/-- The statically configured gate: `LOG_LEVELS = [LogLevel.INFO]` in main.py. -/
def LOG_LEVELS : List LogLevel := [LogLevel.INFO]

/-- Printable name of a level, used in the log line prefix. -/
def levelName : LogLevel → String
  | LogLevel.INFO => "INFO"
  | LogLevel.WARN => "WARN"
  | LogLevel.ERROR => "ERROR"
  | LogLevel.DEBUG => "DEBUG"
  | LogLevel.VERBOSE => "VERBOSE"

/-- The `logger` factory of main.py: a level outside `LOG_LEVELS` yields a
no-op printer (`lambda *a: None`); a gated-in level prints one line
prefixed with the level name.  The result of a call is the list of lines
actually printed. -/
def logger (level : LogLevel) : List String → List String :=
  if LOG_LEVELS.contains level then
    fun args => [String.intercalate " " (("[" ++ levelName level ++ "]") :: args)]
  else
    fun _ => []

/-- The module-level `info` printer. -/
def info : List String → List String := logger LogLevel.INFO

/-- The module-level `warn` printer. -/
def warn : List String → List String := logger LogLevel.WARN

/-! ## Inbound reader loop (`serial_set_callback`, lines 58-74) -/

/-- One result of `serial_dev.read(3)`: either bytes (possibly fewer than 3,
possibly empty when the 1-second timeout fires) or a raised
`OSError`/`SerialException`/`TypeError`. -/
inductive ReadResult
  | data (bytes : List Nat)
  | ioError
deriving DecidableEq, Repr

/-- Observable outcome of the worker thread: the messages it forwarded to the
virtual MIDI output, whether it terminated through the `except ... : break`
branch, and whether the `on_exception` argument of `serial_set_callback`
(the supervisor's `on_serial_error`, which would call `interrupt.set`)
was ever invoked. -/
structure WorkerOutcome where
  forwarded : List (List Nat)
  brokeOnError : Bool
  signalled : Bool
deriving DecidableEq, Repr

/-- `Serial2Midi.process_serial_in` (lines 176-179): the buffer is forwarded
to the virtual MIDI output via `send_message` exactly when its length is 3;
any other length does nothing.  Returns the list of messages sent. -/
def process_serial_in (buf : List Nat) : List (List Nat) :=
  if buf.length = 3 then [buf] else []

/-- The `worker` loop of `serial_set_callback` (lines 61-69): repeatedly
read; on non-empty data invoke the callback (which is
`process_serial_in`); on a read exception, `break` out of the loop.
The source's `except` branch only breaks: it never calls `on_exception`,
so `signalled` can never become true. -/
def workerLoop : List ReadResult → WorkerOutcome
  | [] => ⟨[], false, false⟩
  | ReadResult.ioError :: _ => ⟨[], true, false⟩
  | ReadResult.data b :: rest =>
    let o := workerLoop rest
    ⟨(if b = [] then [] else process_serial_in b) ++ o.forwarded,
      o.brokeOnError, o.signalled⟩

/-! ## Outbound MIDI callback (`process_midi_out`, lines 181-188) -/

/-- Outcome of the underlying `ser.write(buf)` call: it either succeeds or
raises some exception. -/
inductive WriteOutcome
  | ok
  | raise
deriving DecidableEq, Repr

/-- Observable outcome of one `process_midi_out` invocation: the buffers
passed to `ser.write`, whether `self.stop()` was invoked, whether
`logException` ran, and how many `info` log calls were made. -/
structure MidiOutResult where
  written : List (List Nat)
  stopped : Bool
  errorLogged : Bool
  infoCalls : Nat
deriving DecidableEq, Repr

/-- `Serial2Midi.process_midi_out` (lines 181-188).  With a non-empty
buffer, the `info(...)` arguments `hex(buf[0]), hex(buf[1]), hex(buf[2])`
are evaluated first: for a buffer of length 1 or 2 this raises
`IndexError` before anything is written, and the `except` branch runs
`logException` and `self.stop()`.  With length at least 3, the `info` call
happens and then `ser.write(buf)` is given the whole buffer; if the write
raises, the `except` branch again runs `logException` and `self.stop()`. -/
def process_midi_out (wr : WriteOutcome) (buf : List Nat) : MidiOutResult :=
  if buf = [] then ⟨[], false, false, 0⟩
  else if buf.length < 3 then ⟨[], true, true, 0⟩
  else
    match wr with
    | WriteOutcome.ok => ⟨[buf], false, false, 1⟩
    | WriteOutcome.raise => ⟨[], true, true, 1⟩

/-! ## Supervisor (`Serial2Midi.run`/`stop`, lines 89-173)

The supervisor is modelled as a transition system over `RunState`, driven
by a script.  Each `IterInput.iter` item models one pass of the
`while not self.should_stop` body: the discovery result for that pass,
whether an external `stop()` arrived during the `open_serial` retry loop
(the only way `open_serial` returns `None`), whether an external `stop()`
arrived after `open_serial` returned but before
`self._interrupt = interrupt.set` executed, and then the asynchronous
stimuli consumed while the supervisor blocks in `interrupt.wait()`.
-/

/-- Mutable state of the `Serial2Midi` object and the resources `run`
touches.  `hasInterrupt` is whether `self._interrupt` is not `None`;
`interruptSet` is whether the event that `interrupt.wait()` currently
waits on is set.  `serClosesLast` counts `close` calls on the most
recently opened serial handle; `midiCloses` counts executions of the
final `close_port` pair on the virtual endpoint. -/
structure RunState where
  should_stop : Bool
  hasInterrupt : Bool
  interruptSet : Bool
  discoveryCalls : Nat
  openedPaths : List String
  serClosesLast : Nat
  serCloses : Nat
  midiCloses : Nat
  errorLogs : Nat
deriving DecidableEq, Repr

/-- The state of a freshly constructed `Serial2Midi` at the top of `run`. -/
def initialState : RunState :=
  ⟨false, false, false, 0, [], 0, 0, 0, 0⟩

/-- `Serial2Midi.stop` (lines 170-173): set `should_stop`, and if
`self._interrupt` is registered, fire it (set the current event). -/
def stop (s : RunState) : RunState :=
  { s with should_stop := true,
           interruptSet := s.interruptSet || s.hasInterrupt }

/-- Asynchronous stimuli that can arrive while the supervisor blocks in
`interrupt.wait()`: an external `stop()` call (signal handler), a message
delivered to the virtual MIDI input (dispatched to `process_midi_out`
with a stated write outcome), or a serial read raising inside the worker
thread (whose `except` branch only breaks the worker loop). -/
inductive ActiveEvent
  | externalStop
  | midiMsg (buf : List Nat) (wr : WriteOutcome)
  | serialIOError
deriving DecidableEq, Repr

/-- Effect of one asynchronous stimulus on the shared state.  A serial read
error has no effect on the supervisor: the worker's `except` branch never
invokes `on_serial_error`, so `interrupt` is untouched. -/
def handleEvent (s : RunState) : ActiveEvent → RunState
  | ActiveEvent.externalStop => stop s
  | ActiveEvent.serialIOError => s
  | ActiveEvent.midiMsg buf wr =>
    let r := process_midi_out wr buf
    let s1 := { s with errorLogs := s.errorLogs + (if r.errorLogged then 1 else 0) }
    if r.stopped then stop s1 else s1

/-- The supervisor blocked in `interrupt.wait()` (line 159): stimuli are
consumed until the event is observed set; remaining stimuli after the
script runs out leave the wait still blocked. -/
def activeWait (s : RunState) : List ActiveEvent → RunState
  | [] => s
  | e :: rest => if s.interruptSet then s else activeWait (handleEvent s e) rest

/-- One script item for the outer `while not self.should_stop` loop:
either an external `stop()` between iterations, or one iteration carrying
the discovery result, the open-phase stop flags, and the wait-phase
stimuli. -/
inductive IterInput
  | externalStopNow
  | iter (discovered : List String) (stopDuringOpen : Bool)
         (stopBeforeRegister : Bool) (events : List ActiveEvent)
deriving DecidableEq, Repr

/-- Whether the loop reached `midi_in.close_port(); midi_out.close_port()`
(`Stopped`) or is still running/blocked when the script ends. -/
inductive Phase
  | Running
  | Stopped
deriving DecidableEq, Repr

/-- Final state plus phase of a modelled execution of `run`. -/
structure RunResult where
  state : RunState
  phase : Phase
deriving DecidableEq, Repr

/-- Python truthiness of the `device_path` string option used at
`if not device_path:` (line 114): `None` and the empty string are falsy. -/
def pathTruthy : Option String → Bool
  | none => false
  | some s => decide (s ≠ "")

/-- The `close_port` pair at lines 165-166 executed once on loop exit. -/
def closeMidi (s : RunState) : RunState :=
  { s with midiCloses := s.midiCloses + 1 }

/-- Device resolution at lines 112-120: a truthy manual device is used
directly; otherwise `findDevices` is invoked (counted) and the first
discovered path, if any, is taken. -/
def resolvePath (manual : Option String) (discovered : List String)
    (s : RunState) : Option String × RunState :=
  if pathTruthy manual then (some (manual.getD ""), s)
  else
    let s1 := { s with discoveryCalls := s.discoveryCalls + 1 }
    match discovered with
    | [] => (none, s1)
    | p :: _ => (some p, s1)

/-- The connected segment of one loop iteration (lines 138-163, after
`open_serial` has returned a handle): record the opened path; possibly
suffer an external `stop()` in the window between `open_serial` returning
and line 143 (such a stop can only fire the previous, already consumed,
interrupt event); install the fresh interrupt event
(`interruptSet := false`) and register the callbacks; block in
`interrupt.wait()` consuming stimuli.  If woken, the serial handle is
closed once (`stop_serial(); ser.close()`) and the outer loop continues
(`true`); otherwise the supervisor is still blocked (`false`). -/
def iterActive (s1 : RunState) (path : String) (stopBeforeRegister : Bool)
    (events : List ActiveEvent) : RunState × Bool :=
  let s2 := { s1 with openedPaths := s1.openedPaths ++ [path] }
  let s2a := if stopBeforeRegister then stop s2 else s2
  let s2b := { s2a with hasInterrupt := true, interruptSet := false,
                        serClosesLast := 0 }
  let s3 := activeWait s2b events
  if s3.interruptSet then
    ({ s3 with serCloses := s3.serCloses + 1,
               serClosesLast := s3.serClosesLast + 1 }, true)
  else (s3, false)

/-- The body of `Serial2Midi.run` (lines 111-167) as a script-driven
transition system.  Per iteration: check `should_stop`; resolve the
device (empty discovery sleeps and continues); run `open_serial`, which
returns `None` exactly when a stop arrived during its retries; otherwise
run the connected segment (`iterActive`); if its wait was woken, sleep
and loop, and if it stayed blocked when stimuli ran out, the execution is
stuck `Running`.  On loop exit the virtual endpoint is closed once. -/
def runLoop (manual em : Option String) : RunState → List IterInput → RunResult
  | s, [] =>
    if s.should_stop then ⟨closeMidi s, Phase.Stopped⟩ else ⟨s, Phase.Running⟩
  | s, IterInput.externalStopNow :: rest =>
    if s.should_stop then ⟨closeMidi s, Phase.Stopped⟩
    else runLoop manual em (stop s) rest
  | s, IterInput.iter discovered stopDuringOpen stopBeforeRegister events :: rest =>
    if s.should_stop then ⟨closeMidi s, Phase.Stopped⟩
    else
      match resolvePath manual discovered s with
      | (none, s1) => runLoop manual em s1 rest
      | (some path, s1) =>
        if stopDuringOpen then runLoop manual em (stop s1) rest
        else
          match iterActive s1 path stopBeforeRegister events with
          | (s4, true) => runLoop manual em s4 rest
          | (s4, false) => ⟨s4, Phase.Running⟩

/-! ## The `open_serial` retry loop (lines 124-140)

Modelled as a trace of atomic actions, each stamped with a global step
index.  An external `stop()` request is modelled by the instant
`stopRequestedAt` from which on reads of `self.should_stop` return true.
One failed iteration occupies four steps: the `while` flag check, the
`serial.Serial` attempt, the `warn` call, and the `time.sleep`.
-/

/-- Atomic actions of the retry loop. -/
inductive OpenAction
  | check
  | attempt
  | warnLog
  | sleep
deriving DecidableEq, Repr

/-- The value `self.should_stop` reads at step `n` when the stop request
arrives at step `stopRequestedAt` (if ever). -/
def flagAt : Option Nat → Nat → Bool
  | none, _ => false
  | some k, n => decide (k ≤ n)

/-- How the modelled retry loop ended: handle opened, `None` returned
after observing the stop flag, or the outcome script ran out while the
loop would keep retrying. -/
inductive OpenResult
  | opened
  | stopped
  | pending
deriving DecidableEq, Repr

/-- `open_serial` as a stamped action trace.  `outcomes` lists the results
of successive `serial.Serial` attempts (`true` = opened).  A failed
attempt unconditionally warns and sleeps before the flag is read again:
the flag is only consulted at the head of each iteration. -/
def openSerialTrace (stopRequestedAt : Option Nat) :
    Nat → List Bool → List (Nat × OpenAction) × OpenResult
  | n, [] =>
    if flagAt stopRequestedAt n then ([(n, OpenAction.check)], OpenResult.stopped)
    else ([(n, OpenAction.check)], OpenResult.pending)
  | n, outcome :: rest =>
    if flagAt stopRequestedAt n then ([(n, OpenAction.check)], OpenResult.stopped)
    else if outcome then
      ([(n, OpenAction.check), (n + 1, OpenAction.attempt)], OpenResult.opened)
    else
      let r := openSerialTrace stopRequestedAt (n + 4) rest
      ((n, OpenAction.check) :: (n + 1, OpenAction.attempt) ::
        (n + 2, OpenAction.warnLog) :: (n + 3, OpenAction.sleep) :: r.1, r.2)

/-- Whether a stamped action is a `sleep` happening at or after step `k`. -/
def isSleepAtOrAfter (k : Nat) (p : Nat × OpenAction) : Bool :=
  match p.2 with
  | OpenAction.sleep => decide (k ≤ p.1)
  | _ => false

/-- Whether a stamped action is a `sleep`. -/
def isSleep (p : Nat × OpenAction) : Bool :=
  match p.2 with
  | OpenAction.sleep => true
  | _ => false

/-- Whether a stamped action is a `warn(...)` call. -/
def isWarn (p : Nat × OpenAction) : Bool :=
  match p.2 with
  | OpenAction.warnLog => true
  | _ => false

/-- Number of `sleep` actions in a trace whose step index is at or past
`k` (i.e. at or after the stop request instant `k`). -/
def sleepsAtOrAfter (k : Nat) (tr : List (Nat × OpenAction)) : Nat :=
  (tr.filter (isSleepAtOrAfter k)).length

/-- Total number of `sleep` actions in a trace. -/
def countSleeps (tr : List (Nat × OpenAction)) : Nat :=
  (tr.filter isSleep).length

/-- Number of `warn(...)` calls made by a trace. -/
def warnCallsOf (tr : List (Nat × OpenAction)) : Nat :=
  (tr.filter isWarn).length

/-- Number of warn-level log lines actually printed by a trace: each
`warn` call prints the lines the gated `warn` printer produces. -/
def warnLinesOf (tr : List (Nat × OpenAction)) : Nat :=
  warnCallsOf tr * (warn ["Serial open failed:"]).length

/-! ## Device discovery (`findDevices`, lines 194-215) -/

/-- The `dotdict` built by `inspect` for one serial port (lines 197-204). -/
structure DotDevice where
  device_path : String
  usb_description : Option String
  usb_vid : Option Nat
  usb_pid : Option Nat
  usb_manufacturer : Option String
deriving DecidableEq, Repr

/-- Outcome of `eval(eval_match)` against one device: a boolean, or a
raised exception (missing name, type error on a `None` field, ...). -/
inductive EvalOutcome
  | ok (b : Bool)
  | raises
deriving DecidableEq, Repr

/-- The filtering loop of `findDevices` (lines 207-215): evaluate the
predicate on each device; `except Exception: continue` skips a device
whose evaluation raises; a false result also skips; a true result yields
the device. -/
def findDevicesLoop (expr : String) (ev : String → DotDevice → EvalOutcome) :
    List DotDevice → List DotDevice
  | [] => []
  | d :: rest =>
    match ev expr d with
    | EvalOutcome.raises => findDevicesLoop expr ev rest
    | EvalOutcome.ok false => findDevicesLoop expr ev rest
    | EvalOutcome.ok true => d :: findDevicesLoop expr ev rest

/-- `findDevices` with the `if eval_match:` guard (line 209): a `None` or
empty predicate yields every enumerated device unfiltered. -/
def findDevices (em : Option String) (ev : String → DotDevice → EvalOutcome)
    (ports : List DotDevice) : List DotDevice :=
  match em with
  | none => ports
  | some e => if e = "" then ports else findDevicesLoop e ev ports

/-- A concrete descriptor used by witness theorems. -/
def sampleDevice : DotDevice :=
  ⟨"/dev/ttyUSB0", some "USB Serial", some 1027, some 24577, none⟩

/-- A second concrete descriptor used by witness theorems. -/
def sampleDevice2 : DotDevice :=
  ⟨"/dev/ttyACM0", none, none, none, none⟩

/-- A concrete evaluation oracle used by witness theorems: raises on
`sampleDevice`, true elsewhere. -/
def sampleEval (_ : String) (d : DotDevice) : EvalOutcome :=
  if d = sampleDevice then EvalOutcome.raises else EvalOutcome.ok true

/-! ## Helper lemmas -/

/-- Calling `stop` twice leaves the state exactly as one call does. -/
theorem stop_stop (s : RunState) : stop (stop s) = stop s := by
  cases s
  simp [stop, Bool.or_assoc]

/-- Any positive number of `stop` calls equals a single one. -/
theorem stop_iterate (s : RunState) (n : Nat) : stop^[n + 1] s = stop s := by
  induction n with
  | zero => simp
  | succ n ih => rw [Function.iterate_succ_apply', ih, stop_stop]

/-- `stop` only touches `should_stop` and `interruptSet`. -/
theorem stop_preserves (s : RunState) :
    (stop s).midiCloses = s.midiCloses ∧
    (stop s).serCloses = s.serCloses ∧
    (stop s).serClosesLast = s.serClosesLast ∧
    (stop s).discoveryCalls = s.discoveryCalls ∧
    (stop s).openedPaths = s.openedPaths := by
  simp [stop]

/-- A wait-phase stimulus never closes anything, never runs discovery, and
never opens a device. -/
theorem handleEvent_preserves (s : RunState) (e : ActiveEvent) :
    (handleEvent s e).midiCloses = s.midiCloses ∧
    (handleEvent s e).serCloses = s.serCloses ∧
    (handleEvent s e).serClosesLast = s.serClosesLast ∧
    (handleEvent s e).discoveryCalls = s.discoveryCalls ∧
    (handleEvent s e).openedPaths = s.openedPaths := by
  cases e <;> simp only [handleEvent, stop] <;> try simp
  split <;> simp [stop]

/-- Blocking in `interrupt.wait()` closes nothing, runs no discovery, and
opens no device, whatever stimuli arrive. -/
theorem activeWait_preserves (events : List ActiveEvent) :
    ∀ s : RunState,
      (activeWait s events).midiCloses = s.midiCloses ∧
      (activeWait s events).serCloses = s.serCloses ∧
      (activeWait s events).serClosesLast = s.serClosesLast ∧
      (activeWait s events).discoveryCalls = s.discoveryCalls ∧
      (activeWait s events).openedPaths = s.openedPaths := by
  induction events with
  | nil => intro s; simp [activeWait]
  | cons e rest ih =>
    intro s
    by_cases h : s.interruptSet
    · simp [activeWait, h]
    · have h1 := handleEvent_preserves s e
      have h2 := ih (handleEvent s e)
      simp only [activeWait, h, if_false, Bool.false_eq_true]
      exact ⟨h2.1.trans h1.1, h2.2.1.trans h1.2.1, h2.2.2.1.trans h1.2.2.1,
        h2.2.2.2.1.trans h1.2.2.2.1, h2.2.2.2.2.trans h1.2.2.2.2⟩

/-- Device resolution only bumps the discovery counter. -/
theorem resolvePath_preserves (manual : Option String) (d : List String)
    (s : RunState) :
    (resolvePath manual d s).2.midiCloses = s.midiCloses ∧
    (resolvePath manual d s).2.serCloses = s.serCloses ∧
    (resolvePath manual d s).2.serClosesLast = s.serClosesLast ∧
    (resolvePath manual d s).2.openedPaths = s.openedPaths ∧
    (resolvePath manual d s).2.should_stop = s.should_stop := by
  unfold resolvePath
  split
  · simp
  · cases d <;> simp

/-- Once `should_stop` is observed, the outer loop exits at once: the
virtual endpoint is closed and the process is `Stopped`, whatever the
remaining script holds. -/
theorem runLoop_stopped (manual em : Option String) (s : RunState)
    (script : List IterInput) (h : s.should_stop = true) :
    runLoop manual em s script = ⟨closeMidi s, Phase.Stopped⟩ := by
  cases script with
  | nil => simp [runLoop, h]
  | cons it rest => cases it <;> simp [runLoop, h]

/-- Properties of the connected segment: it never closes the virtual
endpoint, runs no discovery, opens exactly `path`, and closes the new
serial handle exactly once when woken — not at all when still blocked. -/
theorem iterActive_spec (s1 : RunState) (path : String) (b : Bool)
    (events : List ActiveEvent) :
    (iterActive s1 path b events).1.midiCloses = s1.midiCloses ∧
    (iterActive s1 path b events).1.serCloses
      = s1.serCloses + (if (iterActive s1 path b events).2 then 1 else 0) ∧
    (iterActive s1 path b events).1.serClosesLast
      = (if (iterActive s1 path b events).2 then 1 else 0) ∧
    (iterActive s1 path b events).1.discoveryCalls = s1.discoveryCalls ∧
    (iterActive s1 path b events).1.openedPaths = s1.openedPaths ++ [path] := by
  have hw := activeWait_preserves events
    { (if b then stop { s1 with openedPaths := s1.openedPaths ++ [path] }
        else { s1 with openedPaths := s1.openedPaths ++ [path] }) with
      hasInterrupt := true, interruptSet := false, serClosesLast := 0 }
  simp only [iterActive]
  cases b <;> simp_all [stop] <;> split <;> simp_all

/-- Close-count invariant of the supervisor loop: the virtual endpoint is
closed exactly when the loop exits (`Stopped`), and the most recently
opened serial handle is never closed more than once. -/
theorem runLoop_counts (manual em : Option String) :
    ∀ (script : List IterInput) (s : RunState),
      (runLoop manual em s script).state.midiCloses
        = s.midiCloses
          + (if (runLoop manual em s script).phase = Phase.Stopped then 1 else 0) ∧
      (runLoop manual em s script).state.serClosesLast ≤ max s.serClosesLast 1 := by
  intro script
  induction script with
  | nil =>
    intro s
    by_cases h : s.should_stop = true
    · refine ⟨by simp [runLoop, h, closeMidi], ?_⟩
      simp only [runLoop, h, if_true]
      exact le_max_left _ _
    · refine ⟨by simp [runLoop, h], ?_⟩
      have heq : runLoop manual em s [] = ⟨s, Phase.Running⟩ := by
        simp [runLoop, h]
      rw [heq]
      exact le_max_left _ _
  | cons it rest ih =>
    intro s
    by_cases h : s.should_stop = true
    · cases it <;>
        exact ⟨by simp [runLoop, h, closeMidi], by
          simp only [runLoop, h, if_true]
          exact le_max_left _ _⟩
    · cases it with
      | externalStopNow =>
        have heq : runLoop manual em s (IterInput.externalStopNow :: rest)
            = runLoop manual em (stop s) rest := by
          simp [runLoop, h]
        rw [heq]
        have hih := ih (stop s)
        have hps := stop_preserves s
        refine ⟨by rw [hih.1, hps.1], ?_⟩
        calc (runLoop manual em (stop s) rest).state.serClosesLast
            ≤ max (stop s).serClosesLast 1 := hih.2
          _ = max s.serClosesLast 1 := by rw [hps.2.2.1]
      | iter discovered stopDuringOpen stopBeforeRegister events =>
        have hpre := resolvePath_preserves manual discovered s
        rcases hres : resolvePath manual discovered s with ⟨op, s1⟩
        rw [hres] at hpre
        cases op with
        | none =>
          have heq : runLoop manual em s
              (IterInput.iter discovered stopDuringOpen stopBeforeRegister events :: rest)
              = runLoop manual em s1 rest := by
            simp [runLoop, h, hres]
          rw [heq]
          have hih := ih s1
          refine ⟨by rw [hih.1, hpre.1], ?_⟩
          calc (runLoop manual em s1 rest).state.serClosesLast
              ≤ max s1.serClosesLast 1 := hih.2
            _ = max s.serClosesLast 1 := by rw [hpre.2.2.1]
        | some path =>
          by_cases hsd : stopDuringOpen = true
          · have heq : runLoop manual em s
                (IterInput.iter discovered stopDuringOpen stopBeforeRegister events :: rest)
                = runLoop manual em (stop s1) rest := by
              simp [runLoop, h, hres, hsd]
            rw [heq]
            have hih := ih (stop s1)
            have hps := stop_preserves s1
            refine ⟨by rw [hih.1, hps.1, hpre.1], ?_⟩
            calc (runLoop manual em (stop s1) rest).state.serClosesLast
                ≤ max (stop s1).serClosesLast 1 := hih.2
              _ = max s.serClosesLast 1 := by rw [hps.2.2.1, hpre.2.2.1]
          · have hspec := iterActive_spec s1 path stopBeforeRegister events
            rcases hia : iterActive s1 path stopBeforeRegister events with ⟨s4, woke⟩
            rw [hia] at hspec
            cases woke with
            | true =>
              have heq : runLoop manual em s
                  (IterInput.iter discovered stopDuringOpen stopBeforeRegister events :: rest)
                  = runLoop manual em s4 rest := by
                simp [runLoop, h, hres, hsd, hia]
              rw [heq]
              have hih := ih s4
              have hm : s4.midiCloses = s.midiCloses := by
                have := hspec.1
                simp only at this
                rw [this, hpre.1]
              have hl : s4.serClosesLast = 1 := by
                have := hspec.2.2.1
                simpa using this
              refine ⟨by rw [hih.1, hm], ?_⟩
              calc (runLoop manual em s4 rest).state.serClosesLast
                  ≤ max s4.serClosesLast 1 := hih.2
                _ = 1 := by rw [hl]; simp
                _ ≤ max s.serClosesLast 1 := le_max_right _ _
            | false =>
              have heq : runLoop manual em s
                  (IterInput.iter discovered stopDuringOpen stopBeforeRegister events :: rest)
                  = ⟨s4, Phase.Running⟩ := by
                simp [runLoop, h, hres, hsd, hia]
              rw [heq]
              have hm : s4.midiCloses = s.midiCloses := by
                have := hspec.1
                simp only at this
                rw [this, hpre.1]
              have hl : s4.serClosesLast = 0 := by
                have := hspec.2.2.1
                simpa using this
              refine ⟨by simp [hm], ?_⟩
              simp only [hl]
              exact le_trans (Nat.zero_le 1) (le_max_right _ _)

/-- With a truthy manual device, no iteration ever invokes discovery and
every opened path is the manual one. -/
theorem runLoop_manual_aux (p : String) (em : Option String) (hp : p ≠ "") :
    ∀ (script : List IterInput) (s : RunState),
      (runLoop (some p) em s script).state.discoveryCalls = s.discoveryCalls ∧
      ∀ q ∈ (runLoop (some p) em s script).state.openedPaths,
        q = p ∨ q ∈ s.openedPaths := by
  have hrp : ∀ (d : List String) (s : RunState),
      resolvePath (some p) d s = (some p, s) := by
    intro d s
    simp [resolvePath, pathTruthy, hp]
  intro script
  induction script with
  | nil =>
    intro s
    by_cases h : s.should_stop = true
    · exact ⟨by simp [runLoop, h, closeMidi], fun q hq => Or.inr (by
        simpa [runLoop, h, closeMidi] using hq)⟩
    · exact ⟨by simp [runLoop, h], fun q hq => Or.inr (by
        simpa [runLoop, h] using hq)⟩
  | cons it rest ih =>
    intro s
    by_cases h : s.should_stop = true
    · cases it <;>
        exact ⟨by simp [runLoop, h, closeMidi], fun q hq => Or.inr (by
          simpa [runLoop, h, closeMidi] using hq)⟩
    · cases it with
      | externalStopNow =>
        have heq : runLoop (some p) em s (IterInput.externalStopNow :: rest)
            = runLoop (some p) em (stop s) rest := by
          simp [runLoop, h]
        rw [heq]
        have hih := ih (stop s)
        have hps := stop_preserves s
        refine ⟨by rw [hih.1, hps.2.2.2.1], fun q hq => ?_⟩
        rcases hih.2 q hq with h1 | h1
        · exact Or.inl h1
        · exact Or.inr (by rwa [hps.2.2.2.2] at h1)
      | iter discovered stopDuringOpen stopBeforeRegister events =>
        by_cases hsd : stopDuringOpen = true
        · have heq : runLoop (some p) em s
              (IterInput.iter discovered stopDuringOpen stopBeforeRegister events :: rest)
              = runLoop (some p) em (stop s) rest := by
            simp [runLoop, h, hrp, hsd]
          rw [heq]
          have hih := ih (stop s)
          have hps := stop_preserves s
          refine ⟨by rw [hih.1, hps.2.2.2.1], fun q hq => ?_⟩
          rcases hih.2 q hq with h1 | h1
          · exact Or.inl h1
          · exact Or.inr (by rwa [hps.2.2.2.2] at h1)
        · have hspec := iterActive_spec s p stopBeforeRegister events
          rcases hia : iterActive s p stopBeforeRegister events with ⟨s4, woke⟩
          rw [hia] at hspec
          have hd4 : s4.discoveryCalls = s.discoveryCalls := by
            have := hspec.2.2.2.1
            simpa using this
          have ho4 : s4.openedPaths = s.openedPaths ++ [p] := by
            have := hspec.2.2.2.2
            simpa using this
          cases woke with
          | true =>
            have heq : runLoop (some p) em s
                (IterInput.iter discovered stopDuringOpen stopBeforeRegister events :: rest)
                = runLoop (some p) em s4 rest := by
              simp [runLoop, h, hrp, hsd, hia]
            rw [heq]
            have hih := ih s4
            refine ⟨by rw [hih.1, hd4], fun q hq => ?_⟩
            rcases hih.2 q hq with h1 | h1
            · exact Or.inl h1
            · rw [ho4] at h1
              rcases List.mem_append.mp h1 with h2 | h2
              · exact Or.inr h2
              · exact Or.inl (List.mem_singleton.mp h2)
          | false =>
            have heq : runLoop (some p) em s
                (IterInput.iter discovered stopDuringOpen stopBeforeRegister events :: rest)
                = ⟨s4, Phase.Running⟩ := by
              simp [runLoop, h, hrp, hsd, hia]
            rw [heq]
            refine ⟨hd4, fun q hq => ?_⟩
            simp only at hq
            rw [ho4] at hq
            rcases List.mem_append.mp hq with h2 | h2
            · exact Or.inr h2
            · exact Or.inl (List.mem_singleton.mp h2)

/-- Whenever `process_midi_out` invokes `self.stop()`, it has also run
`logException` (the `except` branch does both). -/
theorem process_midi_out_stopped_errorLogged (wr : WriteOutcome) (buf : List Nat)
    (h : (process_midi_out wr buf).stopped = true) :
    (process_midi_out wr buf).errorLogged = true := by
  by_cases h0 : buf = []
  · simp [process_midi_out, h0] at h
  · by_cases h3 : buf.length < 3
    · simp [process_midi_out, h0, h3]
    · cases wr
      · simp [process_midi_out, h0, h3] at h
      · simp [process_midi_out, h0, h3]

/-- One full connection attempt whose wait phase consists of a single MIDI
message on which the callback decides to stop the bridge: the supervisor
is woken, closes the serial handle once, exits the loop and closes the
virtual endpoint once. -/
theorem run_single_iter_stop_event (p : String) (em : Option String)
    (buf : List Nat) (wr : WriteOutcome) (hp : p ≠ "")
    (hstop : (process_midi_out wr buf).stopped = true) :
    runLoop (some p) em initialState
        [IterInput.iter [] false false [ActiveEvent.midiMsg buf wr]] =
      ⟨⟨true, true, true, 0, [p], 1, 1, 1, 1⟩, Phase.Stopped⟩ := by
  have herr := process_midi_out_stopped_errorLogged wr buf hstop
  simp [runLoop, resolvePath, pathTruthy, hp, iterActive, activeWait, handleEvent,
        hstop, herr, stop, closeMidi, initialState]

/-- Once the stop flag reads true at the head of an iteration, the retry
loop returns `None` at once: one flag check, no attempt, no warn, no
sleep. -/
theorem openSerial_exits_on_flag (st : Option Nat) (n : Nat)
    (outcomes : List Bool) (h : flagAt st n = true) :
    openSerialTrace st n outcomes = ([(n, OpenAction.check)], OpenResult.stopped) := by
  cases outcomes <;> simp [openSerialTrace, h]

/-- After a stop request at step `k`, at most one further `sleep` is
executed by the retry loop: the iteration already underway is not
interrupted, and the next flag check exits. -/
theorem openSerial_sleeps_after_stop (k : Nat) :
    ∀ (outcomes : List Bool) (n : Nat),
      sleepsAtOrAfter k ((openSerialTrace (some k) n outcomes).1) ≤ 1 := by
  intro outcomes
  induction outcomes with
  | nil =>
    intro n
    by_cases h : flagAt (some k) n = true <;>
      simp [openSerialTrace, h, sleepsAtOrAfter, isSleepAtOrAfter]
  | cons o rest ih =>
    intro n
    by_cases h : flagAt (some k) n = true
    · simp [openSerialTrace, h, sleepsAtOrAfter, isSleepAtOrAfter]
    · cases o with
      | true => simp [openSerialTrace, h, sleepsAtOrAfter, isSleepAtOrAfter]
      | false =>
        have htr : (openSerialTrace (some k) n (false :: rest)).1
            = (n, OpenAction.check) :: (n + 1, OpenAction.attempt) ::
              (n + 2, OpenAction.warnLog) :: (n + 3, OpenAction.sleep) ::
              (openSerialTrace (some k) (n + 4) rest).1 := by
          simp [openSerialTrace, h]
        rw [htr]
        by_cases hk : k ≤ n + 3
        · have h4 : flagAt (some k) (n + 4) = true := by
            simp only [flagAt, decide_eq_true_eq]
            omega
          rw [openSerial_exits_on_flag (some k) (n + 4) rest h4]
          simp [sleepsAtOrAfter, isSleepAtOrAfter, hk]
        · have := ih (n + 4)
          simp only [sleepsAtOrAfter, isSleepAtOrAfter, List.filter] at this ⊢
          simpa [hk] using this

/-- With no stop request, the retry loop sleeps and warns exactly once per
failed attempt, and succeeds exactly when some attempt succeeds. -/
theorem openSerial_counts_no_stop :
    ∀ (outcomes : List Bool) (n : Nat),
      countSleeps ((openSerialTrace none n outcomes).1)
          = (outcomes.takeWhile (fun b => !b)).length ∧
      warnCallsOf ((openSerialTrace none n outcomes).1)
          = (outcomes.takeWhile (fun b => !b)).length ∧
      (openSerialTrace none n outcomes).2
          = (if outcomes.any (fun b => b) then OpenResult.opened
             else OpenResult.pending) := by
  intro outcomes
  induction outcomes with
  | nil =>
    intro n
    simp [openSerialTrace, flagAt, countSleeps, warnCallsOf, isSleep, isWarn]
  | cons o rest ih =>
    intro n
    cases o with
    | true =>
      simp [openSerialTrace, flagAt, countSleeps, warnCallsOf, isSleep, isWarn,
        List.takeWhile]
    | false =>
      have := ih (n + 4)
      simp only [openSerialTrace, flagAt, countSleeps, warnCallsOf, isSleep,
        isWarn, List.takeWhile, List.filter, List.any_cons] at this ⊢
      simp_all

/-- The `on_exception` argument of `serial_set_callback` is dead: no run of
the worker loop ever invokes it. -/
theorem worker_never_signals (reads : List ReadResult) :
    (workerLoop reads).signalled = false := by
  induction reads with
  | nil => rfl
  | cons r rest ih =>
    cases r with
    | data b => simp [workerLoop, ih]
    | ioError => rfl

/-- The worker forwards exactly the reads of length 3, unchanged and in
arrival order, when no read raises. -/
theorem worker_filters (bufs : List (List Nat)) :
    workerLoop (bufs.map ReadResult.data)
      = ⟨bufs.filter (fun b => decide (b.length = 3)), false, false⟩ := by
  induction bufs with
  | nil => rfl
  | cons b rest ih =>
    by_cases h0 : b = []
    · subst h0
      simp [workerLoop, ih, List.filter]
    · by_cases h3 : b.length = 3
      · simp [workerLoop, ih, process_serial_in, h0, h3, List.filter]
      · simp [workerLoop, ih, process_serial_in, h0, h3, List.filter]

/-- Any device in the output of the discovery filter loop evaluated to
`ok true`. -/
theorem findDevicesLoop_mem (expr : String) (ev : String → DotDevice → EvalOutcome) :
    ∀ (ds : List DotDevice) (d : DotDevice), d ∈ findDevicesLoop expr ev ds →
      ev expr d = EvalOutcome.ok true := by
  intro ds
  induction ds with
  | nil => intro d hd; simp [findDevicesLoop] at hd
  | cons x rest ih =>
    intro d hd
    rcases hx : ev expr x with b | _
    · cases b with
      | false =>
        rw [findDevicesLoop, hx] at hd
        exact ih d hd
      | true =>
        rw [findDevicesLoop, hx] at hd
        rcases List.mem_cons.mp hd with h1 | h1
        · rw [h1, hx]
        · exact ih d h1
    · rw [findDevicesLoop, hx] at hd
      exact ih d hd

/-- A device whose predicate evaluation raises is skipped, and the loop
carries on with all devices after it. -/
theorem findDevicesLoop_raises_skip (expr : String)
    (ev : String → DotDevice → EvalOutcome) (d : DotDevice)
    (hd : ev expr d = EvalOutcome.raises) :
    ∀ xs ys : List DotDevice,
      findDevicesLoop expr ev (xs ++ d :: ys)
        = findDevicesLoop expr ev xs ++ findDevicesLoop expr ev ys := by
  intro xs
  induction xs with
  | nil =>
    intro ys
    simp [findDevicesLoop, hd]
  | cons x rest ih =>
    intro ys
    rcases hx : ev expr x with b | _
    · cases b with
      | false => simp [findDevicesLoop, hx, ih]
      | true => simp [findDevicesLoop, hx, ih]
    · simp [findDevicesLoop, hx, ih]

/-! ## Claims -/

/-- Claim C1, refuted by the code (code_bug): when a read raises, the
worker loop does terminate, but the supervisor waiting on the
termination signal is never woken — `serial_set_callback` accepts
`on_exception` yet its `except` branch only breaks, so `interrupt.set`
is never invoked.  Consequently a read error during a connection leaves
the run loop blocked in `interrupt.wait()`: the connection is not torn
down (no serial close) and no reconnect cycle runs. -/
theorem claim1_read_error_terminates_but_never_signals :
    (∀ reads : List ReadResult, (workerLoop reads).signalled = false) ∧
    (∀ rest : List ReadResult,
      workerLoop (ReadResult.ioError :: rest)
        = ⟨[], true, false⟩) ∧
    (runLoop (some "COM3") none initialState
        [IterInput.iter [] false false [ActiveEvent.serialIOError]]).phase
      = Phase.Running ∧
    (runLoop (some "COM3") none initialState
        [IterInput.iter [] false false [ActiveEvent.serialIOError]]).state.serCloses
      = 0 :=
  ⟨worker_never_signals, fun _ => rfl, by decide, by decide⟩

/-- Claim C2 (confirmed): per inbound read, a buffer of length ≠ 3 is never
forwarded and causes no error; a buffer of length 3 is forwarded as one
virtual message byte-identical to the bytes read; across a sequence of
reads the forwarded frames are exactly the length-3 reads, in arrival
order (a sublist of the read sequence). -/
theorem claim2_inbound_frames_filtered_in_order (bufs : List (List Nat)) :
    workerLoop (bufs.map ReadResult.data)
        = ⟨bufs.filter (fun b => decide (b.length = 3)), false, false⟩ ∧
    (workerLoop (bufs.map ReadResult.data)).forwarded.Sublist bufs ∧
    ∀ buf ∈ (workerLoop (bufs.map ReadResult.data)).forwarded,
      buf.length = 3 := by
  refine ⟨worker_filters bufs, ?_, ?_⟩
  · rw [worker_filters bufs]
    exact bufs.filter_sublist
  · intro buf hbuf
    rw [worker_filters bufs] at hbuf
    simp only at hbuf
    have := (List.mem_filter.mp hbuf).2
    simpa using this

/-- Claim C3 (confirmed): if the transport write raises, `process_midi_out`
logs the error (`logException`) and invokes the global stop, writing
nothing; the whole bridge then reaches `Stopped`, with the serial handle
and the virtual endpoint each closed exactly once. -/
theorem claim3_write_error_stops_whole_bridge :
    (∀ buf : List Nat, 3 ≤ buf.length →
      (process_midi_out WriteOutcome.raise buf).errorLogged = true ∧
      (process_midi_out WriteOutcome.raise buf).stopped = true ∧
      (process_midi_out WriteOutcome.raise buf).written = []) ∧
    (∀ (p : String) (em : Option String) (buf : List Nat) (wr : WriteOutcome),
      p ≠ "" → (process_midi_out wr buf).stopped = true →
      runLoop (some p) em initialState
          [IterInput.iter [] false false [ActiveEvent.midiMsg buf wr]]
        = ⟨⟨true, true, true, 0, [p], 1, 1, 1, 1⟩, Phase.Stopped⟩) := by
  constructor
  · intro buf h3
    have h0 : ¬ buf = [] := by
      intro h
      rw [h] at h3
      simp at h3
    have hl : ¬ buf.length < 3 := by omega
    simp [process_midi_out, h0, hl]
  · intro p em buf wr hp hstop
    exact run_single_iter_stop_event p em buf wr hp hstop

/-- Witness for claim C3 at a concrete 3-byte message. -/
theorem claim3_witness :
    (3 ≤ ([144, 60, 64] : List Nat).length ∧
      (process_midi_out WriteOutcome.raise [144, 60, 64]).stopped = true ∧
      ("COM3" : String) ≠ "") ∧
    (process_midi_out WriteOutcome.raise [144, 60, 64]).written = [] ∧
    runLoop (some "COM3") none initialState
        [IterInput.iter [] false false
          [ActiveEvent.midiMsg [144, 60, 64] WriteOutcome.raise]]
      = ⟨⟨true, true, true, 0, ["COM3"], 1, 1, 1, 1⟩, Phase.Stopped⟩ :=
  ⟨⟨by decide, by decide, by decide⟩,
   (claim3_write_error_stops_whole_bridge.1 [144, 60, 64] (by decide)).2.2,
   claim3_write_error_stops_whole_bridge.2 "COM3" none [144, 60, 64]
     WriteOutcome.raise (by decide) (by decide)⟩

/-- Counterexample to claim C4: for the length-4 message
`[144, 60, 64, 10]` with a succeeding write, the callback hands the whole
4-byte message to `ser.write` — not its first 3 bytes, as the claim
states. -/
theorem claim4_counterexample :
    (process_midi_out WriteOutcome.ok [144, 60, 64, 10]).written
      = [[144, 60, 64, 10]] ∧
    ¬ (process_midi_out WriteOutcome.ok [144, 60, 64, 10]).written
      = [List.take 3 [144, 60, 64, 10]] := by decide

/-- Claim C4 as amended: for a message of length at least 3 whose write
succeeds, the callback writes the entire message in one `write` call —
all of its bytes, not only the first 3 — and for a message of exactly
length 3 this coincides with its first 3 bytes.  (Messages of length 1
or 2 write nothing and stop the bridge; see claim C10.) -/
theorem claim4_outbound_writes_whole_message (buf : List Nat)
    (h3 : 3 ≤ buf.length) :
    (process_midi_out WriteOutcome.ok buf).written = [buf] ∧
    (process_midi_out WriteOutcome.ok buf).stopped = false ∧
    (buf.length = 3 →
      (process_midi_out WriteOutcome.ok buf).written = [buf.take 3]) := by
  have h0 : ¬ buf = [] := by
    intro h
    rw [h] at h3
    simp at h3
  have hl : ¬ buf.length < 3 := by omega
  refine ⟨by simp [process_midi_out, h0, hl],
    by simp [process_midi_out, h0, hl], ?_⟩
  intro hlen
  have ht : buf.take 3 = buf := List.take_of_length_le (le_of_eq hlen)
  simp [process_midi_out, h0, hl, ht]

/-- Witness for the amended claim C4 at a concrete 4-byte message. -/
theorem claim4_witness :
    3 ≤ ([144, 60, 64, 10] : List Nat).length ∧
    (process_midi_out WriteOutcome.ok [144, 60, 64, 10]).written
      = [[144, 60, 64, 10]] :=
  ⟨by decide,
   (claim4_outbound_writes_whole_message [144, 60, 64, 10] (by decide)).1⟩

/-- Counterexample to claim C5: a single `stop()` invocation landing in
the window after `open_serial` returns and before
`self._interrupt = interrupt.set` (line 143) sets `should_stop` but can
only fire the previous, already replaced, event: the fresh event that
`interrupt.wait()` then waits on is never set, the supervisor stays
blocked, the process never reaches `Stopped`, and nothing is closed —
so a stop invocation from that state does not result in the process
reaching `Stopped`. -/
theorem claim5_counterexample :
    (runLoop (some "COM3") none initialState
        [IterInput.iter [] false true []]).state.should_stop = true ∧
    (runLoop (some "COM3") none initialState
        [IterInput.iter [] false true []]).phase = Phase.Running ∧
    (runLoop (some "COM3") none initialState
        [IterInput.iter [] false true []]).state.midiCloses = 0 ∧
    (runLoop (some "COM3") none initialState
        [IterInput.iter [] false true []]).state.serCloses = 0 := by decide

/-- Claim C5 as amended: `stop` is idempotent — any positive number of
invocations has exactly the effect of one — and makes `should_stop` true
permanently; from any state already stopped the run loop exits at once,
reaching `Stopped`; and over every schedule from the initial state the
virtual endpoint is closed at most once — exactly once precisely when
`Stopped` is reached — and the most recently opened serial handle at
most once.  (The claim's "from any state ... reaches Stopped" fails only
for a stop request lost in the pre-registration window, per the
counterexample.) -/
theorem claim5_stop_idempotent_single_close :
    (∀ (s : RunState) (n : Nat), stop^[n + 1] s = stop s) ∧
    (∀ s : RunState, (stop s).should_stop = true) ∧
    (∀ (manual em : Option String) (s : RunState) (script : List IterInput),
      s.should_stop = true →
      runLoop manual em s script = ⟨closeMidi s, Phase.Stopped⟩) ∧
    (∀ (manual em : Option String) (script : List IterInput),
      (runLoop manual em initialState script).state.midiCloses ≤ 1 ∧
      (runLoop manual em initialState script).state.serClosesLast ≤ 1 ∧
      ((runLoop manual em initialState script).phase = Phase.Stopped ↔
        (runLoop manual em initialState script).state.midiCloses = 1)) := by
  refine ⟨stop_iterate, fun s => rfl,
    fun manual em s script h => runLoop_stopped manual em s script h, ?_⟩
  intro manual em script
  have h := runLoop_counts manual em script initialState
  have h0 : initialState.midiCloses = 0 := rfl
  have hl0 : initialState.serClosesLast = 0 := rfl
  refine ⟨?_, ?_, ?_, ?_⟩
  · rw [h.1, h0]
    split <;> omega
  · have h2 := h.2
    rw [hl0] at h2
    simpa using h2
  · intro hph
    rw [h.1, h0, if_pos hph]
  · intro hm
    by_contra hph
    rw [h.1, h0, if_neg hph] at hm
    simp at hm

/-- Witness for the amended claim C5 at concrete inputs. -/
theorem claim5_witness :
    (stop initialState).should_stop = true ∧
    runLoop none none (stop initialState) []
      = ⟨closeMidi (stop initialState), Phase.Stopped⟩ ∧
    stop^[3] initialState = stop initialState ∧
    (runLoop none none initialState []).state.midiCloses ≤ 1 :=
  ⟨claim5_stop_idempotent_single_close.2.1 initialState,
   claim5_stop_idempotent_single_close.2.2.1 none none (stop initialState) []
     (by decide),
   claim5_stop_idempotent_single_close.1 initialState 2,
   (claim5_stop_idempotent_single_close.2.2.2 none none []).1⟩

/-- Counterexample to claim C6: with one failed open attempt and a stop
requested at step 2 — right after the attempt fails, before the sleep at
step 3 — the loop still performs that sleep: the stop request does not
pre-empt the pending sleep interval, contradicting "after a stop request
no further sleep is performed inside the retry loop". -/
theorem claim6_counterexample :
    ¬ (∀ q ∈ (openSerialTrace (some 2) 0 [false]).1,
        q.2 = OpenAction.sleep → q.1 < 2) := by decide

/-- Claim C6 as amended: the retry loop checks the stop flag at the head
of every iteration and, once it reads true there, returns immediately —
no further attempt, warn call or sleep; while no stop is requested it
retries indefinitely, sleeping exactly once per failed attempt and
succeeding exactly when some attempt succeeds; but a stop request landing
mid-iteration does not cancel that iteration's sleep: at most one sleep
interval elapses at or after the stop request before the loop exits. -/
theorem claim6_retry_flag_checked_bounded_sleep :
    (∀ (st : Option Nat) (n : Nat) (outcomes : List Bool),
      flagAt st n = true →
      openSerialTrace st n outcomes
        = ([(n, OpenAction.check)], OpenResult.stopped)) ∧
    (∀ (k : Nat) (outcomes : List Bool) (n : Nat),
      sleepsAtOrAfter k ((openSerialTrace (some k) n outcomes).1) ≤ 1) ∧
    (∀ (outcomes : List Bool) (n : Nat),
      countSleeps ((openSerialTrace none n outcomes).1)
        = (outcomes.takeWhile (fun b => !b)).length ∧
      (openSerialTrace none n outcomes).2
        = (if outcomes.any (fun b => b) then OpenResult.opened
           else OpenResult.pending)) :=
  ⟨openSerial_exits_on_flag, openSerial_sleeps_after_stop,
   fun outcomes n => ⟨(openSerial_counts_no_stop outcomes n).1,
     (openSerial_counts_no_stop outcomes n).2.2⟩⟩

/-- Witness for the amended claim C6 at concrete inputs. -/
theorem claim6_witness :
    flagAt (some 0) 0 = true ∧
    openSerialTrace (some 0) 0 [false, true]
      = ([(0, OpenAction.check)], OpenResult.stopped) ∧
    sleepsAtOrAfter 2 ((openSerialTrace (some 2) 0 [false]).1) ≤ 1 :=
  ⟨by decide,
   claim6_retry_flag_checked_bounded_sleep.1 (some 0) 0 [false, true] (by decide),
   claim6_retry_flag_checked_bounded_sleep.2.1 2 [false] 0⟩

/-- Claim C7 (confirmed): a device whose predicate evaluation raises is
excluded from the discovery results — it can never appear in the output —
and discovery continues with all devices after it instead of aborting. -/
theorem claim7_predicate_error_excludes_device_continues
    (e : String) (ev : String → DotDevice → EvalOutcome) (d : DotDevice)
    (he : e ≠ "") (hd : ev e d = EvalOutcome.raises) :
    (∀ xs ys : List DotDevice,
      findDevices (some e) ev (xs ++ d :: ys)
        = findDevices (some e) ev xs ++ findDevices (some e) ev ys) ∧
    (∀ ds : List DotDevice, d ∉ findDevices (some e) ev ds) := by
  have hne : ¬ (e = "") := he
  constructor
  · intro xs ys
    simp only [findDevices, if_neg hne]
    exact findDevicesLoop_raises_skip e ev d hd xs ys
  · intro ds hmem
    simp only [findDevices, if_neg hne] at hmem
    have := findDevicesLoop_mem e ev ds d hmem
    rw [hd] at this
    exact EvalOutcome.noConfusion this

/-- Witness for claim C7 with a concrete predicate oracle that raises on
`sampleDevice`. -/
theorem claim7_witness :
    (("d.usb_vid > 1000" : String) ≠ "" ∧
      sampleEval "d.usb_vid > 1000" sampleDevice = EvalOutcome.raises) ∧
    findDevices (some "d.usb_vid > 1000") sampleEval
        ([sampleDevice2] ++ sampleDevice :: [sampleDevice2])
      = findDevices (some "d.usb_vid > 1000") sampleEval [sampleDevice2]
        ++ findDevices (some "d.usb_vid > 1000") sampleEval [sampleDevice2] ∧
    sampleDevice ∉ findDevices (some "d.usb_vid > 1000") sampleEval
        [sampleDevice2, sampleDevice, sampleDevice2] :=
  ⟨⟨by decide, by decide⟩,
   (claim7_predicate_error_excludes_device_continues "d.usb_vid > 1000"
     sampleEval sampleDevice (by decide) (by decide)).1
     [sampleDevice2] [sampleDevice2],
   (claim7_predicate_error_excludes_device_continues "d.usb_vid > 1000"
     sampleEval sampleDevice (by decide) (by decide)).2
     [sampleDevice2, sampleDevice, sampleDevice2]⟩

/-- Claim C8 (confirmed): with a non-empty manual device path configured,
discovery is never invoked — whatever the match-predicate configuration
and whatever the schedule — and every path handed to `serial.Serial` is
the manual one. -/
theorem claim8_manual_device_never_discovers (p : String) (em : Option String)
    (script : List IterInput) (hp : p ≠ "") :
    (runLoop (some p) em initialState script).state.discoveryCalls = 0 ∧
    ∀ q ∈ (runLoop (some p) em initialState script).state.openedPaths,
      q = p := by
  have h := runLoop_manual_aux p em hp script initialState
  refine ⟨by rw [h.1]; rfl, fun q hq => ?_⟩
  rcases h.2 q hq with h1 | h1
  · exact h1
  · simp [initialState] at h1

/-- Witness for claim C8 at a concrete schedule with a match predicate
configured. -/
theorem claim8_witness :
    ("/dev/ttyUSB0" : String) ≠ "" ∧
    (runLoop (some "/dev/ttyUSB0") (some "d.usb_vid > 1000") initialState
        [IterInput.iter ["/dev/ttyACM0"] false false
          [ActiveEvent.externalStop]]).state.discoveryCalls = 0 :=
  ⟨by decide,
   (claim8_manual_device_never_discovers "/dev/ttyUSB0" (some "d.usb_vid > 1000")
     [IterInput.iter ["/dev/ttyACM0"] false false [ActiveEvent.externalStop]]
     (by decide)).1⟩

/-- Counterexample to claim C9: under the statically configured gate
(`LOG_LEVELS = [LogLevel.INFO]`) the `warn` printer is a no-op, so the
scenario of two failed open attempts followed by success prints zero
warn-level lines — not two, and not one per failed attempt. -/
theorem claim9_counterexample :
    warnLinesOf ((openSerialTrace none 0 [false, false, true]).1) = 0 ∧
    ¬ warnLinesOf ((openSerialTrace none 0 [false, false, true]).1) = 2 := by
  decide

/-- Claim C9 as amended: each failed open attempt makes exactly one call
to the `warn` printer, but the statically configured gate
(`LOG_LEVELS = [LogLevel.INFO]`) excludes WARN, making `warn` a no-op, so
every retry trace prints zero warn-level lines; in particular two
failures then success make two warn calls and print zero lines. -/
theorem claim9_warn_once_per_failure_but_gated_off :
    (∀ args : List String, warn args = []) ∧
    (∀ (outcomes : List Bool) (n : Nat),
      warnCallsOf ((openSerialTrace none n outcomes).1)
        = (outcomes.takeWhile (fun b => !b)).length ∧
      warnLinesOf ((openSerialTrace none n outcomes).1) = 0) := by
  have hw : ∀ args : List String, warn args = [] := fun _ => rfl
  refine ⟨hw, fun outcomes n =>
    ⟨(openSerial_counts_no_stop outcomes n).2.1, ?_⟩⟩
  simp [warnLinesOf, hw]

/-- Claim C10 (confirmed): a MIDI message of length 1 or 2 writes nothing
to the transport and stops the whole bridge: the logging expression's
unconditional indexing of bytes 1 and 2 raises, the callback's own
handler catches it, logs it, and invokes the global stop, after which the
run loop exits, closing the serial handle and the virtual endpoint once
each. -/
theorem claim10_short_message_writes_nothing_stops_bridge
    (wr : WriteOutcome) (buf : List Nat)
    (h : buf.length = 1 ∨ buf.length = 2) :
    process_midi_out wr buf = ⟨[], true, true, 0⟩ ∧
    runLoop (some "COM3") none initialState
        [IterInput.iter [] false false [ActiveEvent.midiMsg buf wr]]
      = ⟨⟨true, true, true, 0, ["COM3"], 1, 1, 1, 1⟩, Phase.Stopped⟩ := by
  have h0 : ¬ buf = [] := by
    intro he
    rw [he] at h
    simp at h
  have hl : buf.length < 3 := by omega
  have hpm : process_midi_out wr buf = ⟨[], true, true, 0⟩ := by
    simp [process_midi_out, h0, hl]
  refine ⟨hpm, run_single_iter_stop_event "COM3" none buf wr (by decide) ?_⟩
  rw [hpm]

/-- Witness for claim C10 at a concrete 1-byte message. -/
theorem claim10_witness :
    (([144] : List Nat).length = 1 ∨ ([144] : List Nat).length = 2) ∧
    process_midi_out WriteOutcome.ok [144] = ⟨[], true, true, 0⟩ :=
  ⟨Or.inl (by decide),
   (claim10_short_message_writes_nothing_stops_bridge WriteOutcome.ok [144]
     (Or.inl (by decide))).1⟩

end SerMidi
